import Mathlib

/-!
Shallow embedding of the crypto price reminder bot (`main.py`) for checking
the natural-language specification against the code.

Modelling conventions:
* instants are seconds since an epoch, as `Nat`; time is frozen within one
  check cycle (the source re-reads the wall clock inside
  `update_reminder_last_run`, but within one cycle this is the same minute);
* the croniter library is an external collaborator; it is represented by a
  `CronEval` record giving expression validity and the prev/next matching
  instant relative to a base instant, plus a concrete instance `every5` for
  the schedule `*/5 * * * *` used by the repository's tests
  (matching instants are the multiples of 300 seconds);
* prices are opaque numeric values (`Nat`); the HTTP price fetch is a
  function `String → Option Nat`, `none` being the failure outcome of
  `get_crypto_price`;
* the observable side effects of one check cycle (price fetches, Telegram
  messages, database writes of `last_run`) are recorded as a trace of
  `Event`s, in the order the source performs them;
* a Python exception inside the per-reminder loop body is an
  `Except.error`; the source's `try/except` around the loop body is the
  `handleOne` wrapper that turns an error into an empty contribution.
-/

/-- One row of the `reminders` table (`init_db`): symbol is the primary key. -/
structure Row where
  symbol : String
  chat_id : Int
  cron_expr : String
  last_run : Option Nat
  created_at : Nat
deriving DecidableEq, Repr

/-- The `reminders` table, as a list of rows. -/
abbrev Store := List Row

/-- `init_db` drops any existing `reminders` table and recreates it empty
(`DROP TABLE IF EXISTS reminders` followed by `CREATE TABLE`). -/
def init_db (_st : Store) : Store := []

/-- `get_all_reminders`: `SELECT symbol, chat_id, cron_expr, last_run FROM
reminders` — a snapshot of all rows, taken at the start of a cycle. -/
def get_all_reminders (st : Store) : List Row := st

/-- `update_reminder_last_run`: `UPDATE reminders SET last_run = ? WHERE
symbol = ?` with the current time; silently a no-op when no row matches. -/
def update_reminder_last_run (st : Store) (symbol : String) (now : Nat) : Store :=
  st.map (fun r => if r.symbol == symbol then { r with last_run := some now } else r)

/-- The croniter external collaborator: validity of an expression string, and
the previous/next matching instant relative to a base instant (`get_prev`
and `get_next` with the constructor's base time). -/
structure CronEval where
  valid : String → Bool
  prev : String → Nat → Nat
  next : String → Nat → Nat

/-- croniter instance for the five-field schedule `*/5 * * * *` (every five
minutes): matching instants are the multiples of 300 seconds, so the most
recent match at or before `t` is `t - t % 300`. -/
def every5 : CronEval where
  valid := fun e => e == "*/5 * * * *"
  prev := fun _ t => t - t % 300
  next := fun _ t => t - t % 300 + 300

/-- The due decision of `check_reminders` line 101..103: with a set
`last_run`, `next_run = croniter(cron_expr, now).get_prev(datetime)` and the
reminder is due when `(now - next_run).total_seconds() > -60`; with
`last_run` absent the first disjunct `last_run is None` decides due. -/
def isDue (ev : CronEval) (cron_expr : String) (last_run : Option Nat) (now : Nat) : Bool :=
  match last_run with
  | none => true
  | some _ => decide ((now : Int) - (ev.prev cron_expr now : Int) > -60)

/-- A Telegram message sent by the checker: the success variant of
`send_price_reminder` with the fetched price, or its error variant. -/
inductive Msg where
  | priceAlert (symbol : String) (price : Nat)
  | priceError (symbol : String)
deriving DecidableEq, Repr

/-- The observable effects of one check cycle, in program order. -/
inductive Event where
  | fetchPrice (symbol : String)
  | send (chat_id : Int) (msg : Msg)
  | updateLastRun (symbol : String)
deriving DecidableEq, Repr

def isSendEvent : Event → Bool
  | Event.send _ _ => true
  | _ => false

def isUpdateEvent : Event → Bool
  | Event.updateLastRun _ => true
  | _ => false

def isFetchEvent : Event → Bool
  | Event.fetchPrice _ => true
  | _ => false

/-- The message `send_price_reminder` delivers, as a function of the fetch
outcome: price alert on success, error text on failure. -/
def deliveredMsg (fetch : String → Option Nat) (symbol : String) : Msg :=
  match fetch symbol with
  | some p => Msg.priceAlert symbol p
  | none => Msg.priceError symbol

/-- `send_price_reminder`: fetch the price, then send either the price-alert
message or the error message to the chat. -/
def send_price_reminder (fetch : String → Option Nat) (chat_id : Int)
    (symbol : String) : List Event :=
  match fetch symbol with
  | some p => [Event.fetchPrice symbol, Event.send chat_id (Msg.priceAlert symbol p)]
  | none => [Event.fetchPrice symbol, Event.send chat_id (Msg.priceError symbol)]

/-- The body of the per-reminder loop in `check_reminders` (lines 100..105),
before the surrounding `try/except`: constructing `croniter(cron_expr, now)`
raises on an invalid expression (`Except.error`); otherwise, when due, the
source calls `send_price_reminder` and then `update_reminder_last_run`. -/
def processOne (ev : CronEval) (fetch : String → Option Nat) (now : Nat)
    (r : Row) : Except String (List Event) :=
  if ev.valid r.cron_expr then
    if isDue ev r.cron_expr r.last_run now then
      Except.ok (send_price_reminder fetch r.chat_id r.symbol ++
        [Event.updateLastRun r.symbol])
    else
      Except.ok []
  else
    Except.error "invalid cron"

/-- The source's `try/except` around the loop body: an exception is logged
and the reminder contributes nothing to the cycle. -/
def handleOne (ev : CronEval) (fetch : String → Option Nat) (now : Nat)
    (r : Row) : List Event :=
  match processOne ev fetch now r with
  | Except.ok evts => evts
  | Except.error _ => []

/-- Replay a database write of the trace onto the store; messages and
fetches do not change the store. -/
def applyEvent (now : Nat) (st : Store) (e : Event) : Store :=
  match e with
  | Event.updateLastRun symbol => update_reminder_last_run st symbol now
  | _ => st

def applyEvents (now : Nat) (st : Store) (evts : List Event) : Store :=
  evts.foldl (applyEvent now) st

/-- The loop of one cycle over the snapshot, accumulating the trace and
threading the database writes through the store. -/
def runCycleGo (ev : CronEval) (fetch : String → Option Nat) (now : Nat) :
    List Row → List Event × Store → List Event × Store
  | [], acc => acc
  | r :: rest, acc =>
    let evts := handleOne ev fetch now r
    runCycleGo ev fetch now rest (acc.1 ++ evts, applyEvents now acc.2 evts)

/-- One cycle of `check_reminders`: read the snapshot, process every
reminder in order, each one under its own exception handler. -/
def runCycle (ev : CronEval) (fetch : String → Option Nat) (st : Store)
    (now : Nat) : List Event × Store :=
  runCycleGo ev fetch now (get_all_reminders st) ([], st)

/-- The events contributed by a list of reminders, one segment per
reminder. -/
def cycleTrace (ev : CronEval) (fetch : String → Option Nat) (now : Nat) :
    List Row → List Event
  | [] => []
  | r :: rest => handleOne ev fetch now r ++ cycleTrace ev fetch now rest

/-- First match of `p` strictly before a later match of `q` in the trace. -/
def precedesB (p q : Event → Bool) : List Event → Bool
  | [] => false
  | e :: es => if p e then es.any q else precedesB p q es

/-- The row a `SELECT ... WHERE symbol = ?` returns. -/
def findSym (st : Store) (symbol : String) : Option Row :=
  st.find? (fun r => r.symbol == symbol)

/-- Number of rows holding the symbol. -/
def countSymbol (st : Store) (symbol : String) : Nat :=
  (st.filter (fun r => r.symbol == symbol)).length

/-- An incoming Telegram message for `set_reminder`: the sender's chat id
and the text, modelled at whitespace-token granularity. -/
structure Message where
  chat_id : Int
  tokens : List String
deriving DecidableEq, Repr

/-- Python's `text.split(None, 2)` at token granularity: at most two splits,
so everything from the third token on stays one argument (the cron
expression may contain blanks). -/
def splitMax2 : List String → List String
  | a :: b :: c :: rest => [a, b, String.intercalate " " (c :: rest)]
  | ts => ts

/-- The replies `set_reminder` sends back to the requesting chat
(`bot.reply_to(message, ...)`). -/
inductive Reply where
  | reminderSet (symbol cron_expr : String)
  | priceTest (symbol : String) (price : Nat)
  | priceWarn (symbol : String)
  | errValue (reason : String)
deriving DecidableEq, Repr

/-- `REPLACE INTO reminders (symbol, chat_id, cron_expr) VALUES (?, ?, ?)`:
SQLite deletes every row conflicting on the primary key `symbol` and inserts
a fresh row; the columns not listed take their defaults, `last_run` NULL and
`created_at` CURRENT_TIMESTAMP (the registration instant `now`). -/
def upsert (st : Store) (symbol : String) (chat_id : Int) (cron_expr : String)
    (now : Nat) : Store :=
  { symbol := symbol, chat_id := chat_id, cron_expr := cron_expr,
    last_run := none, created_at := now } ::
    st.filter (fun r => !(r.symbol == symbol))

/-- The `/setreminder` handler: split the text into at most three arguments,
reject on a wrong argument count or an invalid cron expression (the raised
`ValueError` is caught in the same handler and reported as an error reply),
otherwise store the reminder with the symbol uppercased and reply with a
confirmation followed by a price-test reply (success or warning). `is_valid`
is `croniter.is_valid`; `fetch` is `get_crypto_price`. -/
def set_reminder (is_valid : String → Bool) (fetch : String → Option Nat)
    (st : Store) (msg : Message) (now : Nat) : Store × List Reply :=
  let args := splitMax2 msg.tokens
  if args.length = 3 then
    let symbol := (args.getD 1 "").toUpper
    let cron_expr := args.getD 2 ""
    if is_valid cron_expr then
      let st' := upsert st symbol msg.chat_id cron_expr now
      let testReply :=
        match fetch symbol with
        | some p => Reply.priceTest symbol p
        | none => Reply.priceWarn symbol
      (st', [Reply.reminderSet symbol cron_expr, testReply])
    else
      (st, [Reply.errValue "Invalid cron expression"])
  else
    (st, [Reply.errValue "Invalid number of arguments"])

/-- Concrete data: a BTC reminder on `*/5 * * * *` that has never fired. -/
def rowBTCnew : Row :=
  { symbol := "BTC", chat_id := 123, cron_expr := "*/5 * * * *",
    last_run := none, created_at := 0 }

/-- Concrete data: the same reminder after firing at T = 36000 s (10:00). -/
def rowBTCfired : Row :=
  { symbol := "BTC", chat_id := 123, cron_expr := "*/5 * * * *",
    last_run := some 36000, created_at := 0 }

/-- Concrete data: a reminder whose persisted schedule is no longer a valid
cron expression. -/
def rowBad : Row :=
  { symbol := "DOGE", chat_id := 5, cron_expr := "not a cron",
    last_run := none, created_at := 0 }

/-- A price fetch that succeeds with a fixed price. -/
def fetchOK : String → Option Nat := fun _ => some 50000

/-- A price fetch that fails (`get_crypto_price` returning `None`). -/
def fetchFail : String → Option Nat := fun _ => none

theorem send_price_reminder_eq (fetch : String → Option Nat) (chat_id : Int)
    (symbol : String) :
    send_price_reminder fetch chat_id symbol =
      [Event.fetchPrice symbol, Event.send chat_id (deliveredMsg fetch symbol)] := by
  cases h : fetch symbol <;> simp [send_price_reminder, deliveredMsg, h]

theorem runCycleGo_fst (ev : CronEval) (fetch : String → Option Nat) (now : Nat)
    (rs : List Row) : ∀ (tr : List Event) (st : Store),
    (runCycleGo ev fetch now rs (tr, st)).1 = tr ++ cycleTrace ev fetch now rs := by
  induction rs with
  | nil => intro tr st; simp [runCycleGo, cycleTrace]
  | cons r rest ih => intro tr st; simp [runCycleGo, cycleTrace, ih, List.append_assoc]

theorem cycleTrace_append (ev : CronEval) (fetch : String → Option Nat) (now : Nat)
    (l1 l2 : List Row) :
    cycleTrace ev fetch now (l1 ++ l2) =
      cycleTrace ev fetch now l1 ++ cycleTrace ev fetch now l2 := by
  induction l1 with
  | nil => simp [cycleTrace]
  | cons r rest ih => simp [cycleTrace, ih, List.append_assoc]

theorem findSym_upsert (st : Store) (s : String) (c : Int) (cr : String) (now : Nat) :
    findSym (upsert st s c cr now) s =
      some { symbol := s, chat_id := c, cron_expr := cr, last_run := none,
             created_at := now } := by
  simp [findSym, upsert, List.find?]

theorem filter_not_symbol (st : Store) (s : String) :
    (st.filter (fun r => !(r.symbol == s))).filter (fun r => r.symbol == s) = [] := by
  induction st with
  | nil => rfl
  | cons r rest ih =>
    by_cases h : r.symbol = s <;> simp [List.filter_cons, h, ih]

theorem filter_symbol_comm (st : Store) (s s' : String) (h : s' ≠ s) :
    (st.filter (fun r => !(r.symbol == s))).filter (fun r => r.symbol == s') =
      st.filter (fun r => r.symbol == s') := by
  induction st with
  | nil => rfl
  | cons r rest ih =>
    by_cases hr : r.symbol = s
    · have h2 : ¬ (r.symbol = s') := by rw [hr]; exact fun hs => h hs.symm
      have h3 : ¬ (s = s') := fun hs => h hs.symm
      simp [List.filter_cons, hr, h2, h3, ih]
    · simp [List.filter_cons, hr, ih]

theorem countSymbol_upsert (st : Store) (s s' : String) (c : Int) (cr : String)
    (now : Nat) :
    countSymbol (upsert st s c cr now) s' =
      if s' = s then 1 else countSymbol st s' := by
  by_cases h : s' = s
  · subst h
    simp [countSymbol, upsert, List.filter_cons, filter_not_symbol]
  · simp [countSymbol, upsert, List.filter_cons, filter_symbol_comm st s s' h, h,
      Ne.symm h]

/-- Claim C1: the due-window contract fails on the code. For the reminder
with schedule `*/5 * * * *` and `last_fired_at` = T = 36000 s, a cycle at
now = T+1min still decides it due and fires it: with a set `last_run`,
`next_run = get_prev(now) ≤ now`, so `(now - next_run).total_seconds() > -60`
always holds. The repository's own test (`test_main.py::test_check_reminders`,
the 10:01 and 10:04 cases) expects no firing here. -/
theorem c1_code_fires_one_minute_after_instant :
    isDue every5 "*/5 * * * *" (some 36000) 36060 = true ∧
    isDue every5 "*/5 * * * *" (some 36000) 36240 = true ∧
    (runCycle every5 fetchOK [rowBTCfired] 36060).1.any isSendEvent = true := by
  decide

/-- Claim C2 counterexample: for a concrete due reminder, the per-reminder
trace holds both a `last_run` write and a delivery, and the write does not
precede the delivery — the source calls `send_price_reminder` before
`update_reminder_last_run`. -/
theorem c2_persist_does_not_precede_delivery :
    (handleOne every5 fetchOK 36000 rowBTCfired).any isUpdateEvent = true ∧
    (handleOne every5 fetchOK 36000 rowBTCfired).any isSendEvent = true ∧
    precedesB isUpdateEvent isSendEvent (handleOne every5 fetchOK 36000 rowBTCfired)
      = false := by
  decide

/-- Claim C2 as amended: in every cycle, for each reminder decided due, the
operations happen in the order compute due, then fetch price, then deliver
the notification (success or failure variant), then persist
`last_fired_at = now` — the delivery call precedes the `last_fired_at`
write. -/
theorem c2_order_fetch_deliver_persist (ev : CronEval) (fetch : String → Option Nat)
    (now : Nat) (r : Row) (hv : ev.valid r.cron_expr = true)
    (hd : isDue ev r.cron_expr r.last_run now = true) :
    processOne ev fetch now r =
      Except.ok [Event.fetchPrice r.symbol,
        Event.send r.chat_id (deliveredMsg fetch r.symbol),
        Event.updateLastRun r.symbol] := by
  simp [processOne, hv, hd, send_price_reminder_eq]

/-- Witness for the amended C2 at a concrete due reminder. -/
theorem c2_order_fetch_deliver_persist_witness :
    processOne every5 fetchOK 36000 rowBTCfired =
      Except.ok [Event.fetchPrice "BTC",
        Event.send 123 (deliveredMsg fetchOK "BTC"),
        Event.updateLastRun "BTC"] :=
  c2_order_fetch_deliver_persist every5 fetchOK 36000 rowBTCfired (by decide) (by decide)

/-- Claim C3: a reminder whose `last_fired_at` is absent is decided due at
every instant, whatever its (valid) cron expression's alignment with `now`,
and the cycle fires it: price fetch, delivery, `last_run` write. -/
theorem c3_first_run_always_fires (ev : CronEval) (fetch : String → Option Nat)
    (now : Nat) (symbol : String) (chat_id : Int) (cron_expr : String)
    (created : Nat) (hv : ev.valid cron_expr = true) :
    isDue ev cron_expr none now = true ∧
    processOne ev fetch now
      { symbol := symbol, chat_id := chat_id, cron_expr := cron_expr,
        last_run := none, created_at := created } =
      Except.ok [Event.fetchPrice symbol,
        Event.send chat_id (deliveredMsg fetch symbol),
        Event.updateLastRun symbol] := by
  refine ⟨rfl, ?_⟩
  simp [processOne, hv, isDue, send_price_reminder_eq]

/-- Witness for C3: the never-fired BTC reminder fires at an instant that is
not aligned with its schedule. -/
theorem c3_first_run_always_fires_witness :
    isDue every5 "*/5 * * * *" none 36037 = true ∧
    processOne every5 fetchOK 36037
      { symbol := "BTC", chat_id := 123, cron_expr := "*/5 * * * *",
        last_run := none, created_at := 0 } =
      Except.ok [Event.fetchPrice "BTC",
        Event.send 123 (deliveredMsg fetchOK "BTC"),
        Event.updateLastRun "BTC"] :=
  c3_first_run_always_fires every5 fetchOK 36037 "BTC" 123 "*/5 * * * *" 0 (by decide)

/-- Claim C10: `init_db` drops any existing `reminders` table before
recreating it, so after every call the store is empty, for every prior
store state. -/
theorem c10_init_db_empties_store (st : Store) : init_db st = [] := rfl

/-- Claim C4 at its failing input: when the never-fired BTC reminder is due
at now = 36000 and the price fetch fails, the cycle does deliver the error
notification to the owner chat and does persist `last_fired_at = now`
(the first two conjuncts), but the next cycle, 60 seconds later, is due
again and retries the same scheduled instant (third conjunct): the code's
due check holds whenever `last_run` is set. -/
theorem c4_failed_fetch_notifies_and_persists_but_retries :
    (runCycle every5 fetchFail [rowBTCnew] 36000).1 =
      [Event.fetchPrice "BTC", Event.send 123 (Msg.priceError "BTC"),
        Event.updateLastRun "BTC"] ∧
    (runCycle every5 fetchFail [rowBTCnew] 36000).2 = [rowBTCfired] ∧
    (runCycle every5 fetchFail [rowBTCfired] 36060).1.any isSendEvent = true := by
  decide

/-- Claim C5: per-reminder isolation. If processing one reminder raises
(`processOne` yields an error, e.g. a persisted schedule that is no longer a
valid cron expression), the cycle still evaluates every other reminder: its
trace is exactly the traces of the reminders before and after the failing
one, and the cycle itself returns normally. -/
theorem c5_per_reminder_isolation (ev : CronEval) (fetch : String → Option Nat)
    (now : Nat) (rs1 rs2 : List Row) (r : Row) (e : String)
    (h : processOne ev fetch now r = Except.error e) :
    (runCycle ev fetch (rs1 ++ r :: rs2) now).1 =
      cycleTrace ev fetch now rs1 ++ cycleTrace ev fetch now rs2 := by
  have hr : handleOne ev fetch now r = [] := by simp [handleOne, h]
  simp [runCycle, get_all_reminders, runCycleGo_fst, cycleTrace_append, cycleTrace, hr]

/-- Witness for C5: a cycle over two valid reminders with an invalid-cron
reminder between them still processes both. -/
theorem c5_per_reminder_isolation_witness :
    (runCycle every5 fetchOK ([rowBTCnew] ++ rowBad :: [rowBTCfired]) 36000).1 =
      cycleTrace every5 fetchOK 36000 [rowBTCnew] ++
        cycleTrace every5 fetchOK 36000 [rowBTCfired] :=
  c5_per_reminder_isolation every5 fetchOK 36000 [rowBTCnew] [rowBTCfired] rowBad
    "invalid cron" rfl

/-- Claim C7: registering a symbol that already has a row replaces that
row's `owner_chat_id` and `schedule` (the stored row is exactly the new
one), and for every store state and every symbol whose row count was at most
1, the count stays at most 1 after the registration's `REPLACE INTO`. -/
theorem c7_upsert_replaces_and_keeps_unique (st : Store) (s s' : String)
    (c : Int) (cr : String) (now : Nat) (h : countSymbol st s' ≤ 1) :
    findSym (upsert st s c cr now) s =
      some { symbol := s, chat_id := c, cron_expr := cr, last_run := none,
             created_at := now } ∧
    countSymbol (upsert st s c cr now) s' ≤ 1 := by
  refine ⟨findSym_upsert st s c cr now, ?_⟩
  rw [countSymbol_upsert]
  by_cases hs : s' = s <;> simp [hs, h]

/-- Witness for C7: re-registering BTC over an existing BTC row. -/
theorem c7_upsert_replaces_and_keeps_unique_witness :
    findSym (upsert [rowBTCfired] "BTC" 777 "0 10 * * *" 42) "BTC" =
      some { symbol := "BTC", chat_id := 777, cron_expr := "0 10 * * *",
             last_run := none, created_at := 42 } ∧
    countSymbol (upsert [rowBTCfired] "BTC" 777 "0 10 * * *" 42) "BTC" ≤ 1 :=
  c7_upsert_replaces_and_keeps_unique [rowBTCfired] "BTC" "BTC" 777 "0 10 * * *" 42
    (by decide)

/-- Claim C8: `/setreminder` validation. A wrong argument count or an
invalid cron expression is rejected with the corresponding reason reported
to the requesting owner and the store is unchanged; otherwise the reminder
is persisted with its symbol case-normalized to uppercase. -/
theorem c8_registration_validation (is_valid : String → Bool)
    (fetch : String → Option Nat) (st : Store) (msg : Message) (now : Nat) :
    ((splitMax2 msg.tokens).length ≠ 3 →
      set_reminder is_valid fetch st msg now =
        (st, [Reply.errValue "Invalid number of arguments"])) ∧
    ((splitMax2 msg.tokens).length = 3 →
      is_valid ((splitMax2 msg.tokens).getD 2 "") = false →
      set_reminder is_valid fetch st msg now =
        (st, [Reply.errValue "Invalid cron expression"])) ∧
    ((splitMax2 msg.tokens).length = 3 →
      is_valid ((splitMax2 msg.tokens).getD 2 "") = true →
      (set_reminder is_valid fetch st msg now).1 =
        upsert st ((splitMax2 msg.tokens).getD 1 "").toUpper msg.chat_id
          ((splitMax2 msg.tokens).getD 2 "") now) := by
  refine ⟨fun h1 => ?_, fun h1 h2 => ?_, fun h1 h2 => ?_⟩
  · simp [set_reminder, h1]
  · simp [h1] at h2
    simp [set_reminder, h1, h2]
  · simp [h1] at h2
    simp [set_reminder, h1, h2]

/-- A malformed registration request: only two whitespace tokens. -/
def msgShort : Message := { chat_id := 123, tokens := ["/setreminder", "btc"] }

/-- A well-formed registration request whose cron expression contains
blanks, with the symbol in lowercase. -/
def msgGood : Message :=
  { chat_id := 123, tokens := ["/setreminder", "btc", "*/5", "*", "*", "*", "*"] }

/-- Witness for C8: a two-token request is rejected without touching the
store, and a valid request persists the uppercased symbol. -/
theorem c8_registration_validation_witness :
    set_reminder every5.valid fetchOK [] msgShort 7 =
      ([], [Reply.errValue "Invalid number of arguments"]) ∧
    (set_reminder every5.valid fetchOK [] msgGood 7).1 =
      upsert [] ((splitMax2 msgGood.tokens).getD 1 "").toUpper msgGood.chat_id
        ((splitMax2 msgGood.tokens).getD 2 "") 7 :=
  ⟨(c8_registration_validation every5.valid fetchOK [] msgShort 7).1 (by decide),
    (c8_registration_validation every5.valid fetchOK [] msgGood 7).2.2
      (by decide) (by decide)⟩

/-- Claim C9 counterexample: re-registering an existing symbol does change
its `created_at` — `REPLACE INTO` deletes the old row and inserts a fresh
one whose `created_at` takes the new CURRENT_TIMESTAMP default. -/
theorem c9_reregistration_resets_created_at :
    (findSym (upsert [rowBTCnew] "BTC" 2 "0 10 * * *" 9) "BTC").map Row.created_at ≠
      (findSym [rowBTCnew] "BTC").map Row.created_at := by
  decide

/-- Claim C9 as amended: `created_at` is set at creation and left unchanged
by `last_fired_at` updates, but re-registration of the same symbol replaces
the whole row, resetting `created_at` to the new registration instant (and
clearing `last_fired_at`). -/
theorem c9_created_at_stable_except_reregistration :
    (∀ (st : Store) (s : String) (now : Nat),
      (update_reminder_last_run st s now).map Row.created_at =
        st.map Row.created_at) ∧
    (∀ (st : Store) (s : String) (c : Int) (cr : String) (now : Nat),
      (findSym (upsert st s c cr now) s).map Row.created_at = some now ∧
      (findSym (upsert st s c cr now) s).map Row.last_run = some none) := by
  constructor
  · intro st s now
    induction st with
    | nil => rfl
    | cons r rest ih =>
      simp only [update_reminder_last_run, List.map_cons] at ih ⊢
      rw [ih]
      cases h : r.symbol == s <;> simp [h]
  · intro st s c cr now
    rw [findSym_upsert]
    exact ⟨rfl, rfl⟩
